import Mathlib

/-!
Verification of the `disown` crate (src/lib.rs).

The crate exposes a single trait

  pub trait Disown { fn disown(self); }

and one blanket implementation

  impl<T> Disown for T { fn disown(self) {} }

The development embeds this at three levels:

1. The trait and its blanket implementation as a Lean type class with a
   universal instance whose method is the constant unit function, mirroring the
   empty body.
2. An effect-trace semantics: dropping a value of type `T` may update an
   ambient state `S` (an external counter, a heap, ...) and emit observable
   events.  A call `v.disown()` runs the empty body and then drops `self` at
   function exit, exactly as Rust drops an owned parameter when the function
   returns.
3. A move checker over a small fragment of Rust types and statements, faithful
   to Rust's rules for this fragment: a `let` introduces a live binding, a
   by-value use of a non-`Copy` binding moves it out (the binding dies), a
   by-value use of a `Copy` binding copies it (the binding stays live), a read
   requires the binding to be live, and the blanket implementation's type
   parameter carries Rust's implicit `Sized` bound.
-/

/-- The `Disown` trait from src/lib.rs: one method `disown`, taking `self` by
value and returning unit. -/
class Disown (T : Type) where
  disown : T → Unit

/-- The blanket implementation `impl<T> Disown for T` with the empty body
`fn disown(self) \x7b\x7d`: the method is the constant unit function. -/
instance instDisownAll (T : Type) : Disown T :=
  ⟨fun _ => ()⟩

/-- Observable events emitted while the program runs; a custom `Drop`
implementation that records a side effect emits one. -/
inductive Event
  | drop (id : Nat)
deriving DecidableEq

/-- Drop semantics for values of type `T` over an ambient state `S`: dropping a
value may update the state and emits a list of observable events.  This models
whatever `Drop` implementation (possibly none) the consumed value's type has,
which is outside the crate itself. -/
structure DropSem (T : Type) (S : Type) where
  onDrop : T → S → S × List Event

/-- The body of `fn disown(self) \x7b\x7d`: it is empty, so it touches no state,
emits no events, ignores `self`, and returns unit. -/
def disownBodyRun {T S : Type} (σ : S) (_self : T) : S × Unit × List Event :=
  (σ, (), [])

/-- A call `v.disown()` under drop semantics `d`: the empty body runs, then
`self` is dropped when the function returns, since Rust drops an owned
parameter at function exit. -/
def disownRun {T S : Type} (d : DropSem T S) (σ : S) (v : T) : S × Unit × List Event :=
  let r := disownBodyRun σ v
  let p := d.onDrop v r.1
  (p.1, r.2.1, r.2.2 ++ p.2)

/-- Modelled from the spec: "letting the value fall out of scope normally" —
at end of scope the value's drop runs, updating the state and emitting the
value's drop events.  This is the baseline the spec compares `disown`
against. -/
def fallOutOfScope {T S : Type} (d : DropSem T S) (σ : S) (v : T) : S × List Event :=
  d.onDrop v σ

/-- A value of a type with a custom `Drop` implementation that records a side
effect: dropping it increments an external counter and emits one event. -/
structure Noisy where
  id : Nat
deriving DecidableEq

/-- Drop semantics of `Noisy`: the counter (the ambient state) goes up by one
and exactly one drop event is emitted. -/
def noisyDropSem : DropSem Noisy Nat :=
  ⟨fun n c => (c + 1, [Event.drop n.id])⟩

/-- Reference values carry an address into a heap of values; Rust references
implement no `Drop`, so dropping one (shared or mutable) updates nothing and
emits nothing — in particular the referent is not released. -/
def refDropSem (V : Type) : DropSem Nat (List V) :=
  ⟨fun _ h => (h, [])⟩

/-- A call `v.disown()` where the value's own drop may itself fail (e.g. a
panicking `Drop`): the empty body cannot fail, so the only error source is the
drop of `self` at function exit, and it is propagated unchanged. -/
def disownRunE {T S E : Type} (d : T → S → Except E (S × List Event)) (σ : S) (v : T) :
    Except E (S × Unit × List Event) :=
  match d v σ with
  | .error e => .error e
  | .ok p => .ok (p.1, (), p.2)

/-- The fragment of Rust types needed for the claims about the blanket
implementation: some `Copy` primitives, the doc example's `Person` enum, a type
with a custom `Drop` implementation, the unsized types `str`, slices and trait
objects, and the two reference constructors. -/
inductive Ty
  | int
  | boolTy
  | unitTy
  | person
  | noisy
  | strTy
  | sliceTy (t : Ty)
  | dynTy
  | refTy (t : Ty)
  | refMutTy (t : Ty)
deriving DecidableEq

/-- Whether a type is `Sized` in Rust: `str`, slices and trait objects are not;
references to anything are. -/
def Ty.sized : Ty → Bool
  | .strTy => false
  | .sliceTy _ => false
  | .dynTy => false
  | _ => true

/-- Whether a type is `Copy` in Rust: the primitives and shared references are;
`Person` (no derive), types with a `Drop` implementation (forbidden to be
`Copy`), mutable references and unsized types are not. -/
def Ty.isCopy : Ty → Bool
  | .int => true
  | .boolTy => true
  | .unitTy => true
  | .refTy _ => true
  | _ => false

/-- Whether the blanket implementation `impl<T> Disown for T` applies to a
type: the type parameter `T` carries Rust's implicit `Sized` bound, so the
implementation covers exactly the sized types. -/
def disownImplApplies (t : Ty) : Bool :=
  t.sized

/-- Statements of the fragment: `let x: t = ...;`, `let r = &x;`,
`x.disown();` and a non-consuming read of `x` (such as printing it). -/
inductive Stmt
  | letInit (x : String) (t : Ty)
  | letRef (r x : String)
  | disownCall (x : String)
  | useVar (x : String)

/-- Look a variable's declared type up in the context. -/
def lookupTy : List (String × Ty) → String → Option Ty
  | [], _ => none
  | (y, t) :: rest, x => if x == y then some t else lookupTy rest x

/-- Whether a binding is live (still owns its value). -/
def isLive : List String → String → Bool
  | [], _ => false
  | y :: rest, x => x == y || isLive rest x

/-- Remove a binding from the live set (it has been moved out of). -/
def kill : List String → String → List String
  | [], _ => []
  | y :: rest, x => if y == x then kill rest x else y :: kill rest x

/-- The move checker for the fragment, mirroring rustc's rules: a `let` needs a
sized type and makes the binding live; taking a reference and reading both need
the binding live and do not consume it; `x.disown()` needs the binding live and
the blanket implementation applicable to its type, and — because `disown` takes
`self` by value — moves the binding out when its type is not `Copy`, while a
`Copy` type is copied into the call and the binding stays live. -/
def checkFrom : List (String × Ty) → List String → List Stmt → Bool
  | _, _, [] => true
  | c, live, Stmt.letInit x t :: rest =>
      t.sized && checkFrom ((x, t) :: c) (x :: live) rest
  | c, live, Stmt.letRef r x :: rest =>
      match lookupTy c x with
      | none => false
      | some t => isLive live x && checkFrom ((r, Ty.refTy t) :: c) (r :: live) rest
  | c, live, Stmt.disownCall x :: rest =>
      match lookupTy c x with
      | none => false
      | some t =>
          isLive live x && disownImplApplies t &&
            checkFrom c (if t.isCopy then live else kill live x) rest
  | c, live, Stmt.useVar x :: rest =>
      isLive live x && checkFrom c live rest

/-- Whether a whole program compiles, starting from an empty context. -/
def checkProg (p : List Stmt) : Bool :=
  checkFrom [] [] p

theorem lookupTy_cons_self (x : String) (t : Ty) (c : List (String × Ty)) :
    lookupTy ((x, t) :: c) x = some t := by
  simp [lookupTy]

theorem isLive_cons_self (x : String) (live : List String) :
    isLive (x :: live) x = true := by
  simp [isLive]

theorem kill_singleton_self (x : String) : kill [x] x = [] := by
  simp [kill]

theorem isLive_nil (x : String) : isLive [] x = false := rfl

/-- C1: for every type `T` and every value `v : T`, the call `disown v`
type-checks (the blanket instance provides it at every type) and the call
expression evaluates to the unit value, also under the effect-aware run
semantics. -/
theorem disown_evaluates_to_unit :
    ∀ (T : Type) (v : T), Disown.disown v = () ∧
      ∀ (S : Type) (d : DropSem T S) (σ : S), (disownRun d σ v).2.1 = () :=
  fun _ _ => ⟨rfl, fun _ _ _ => rfl⟩

/-- C2: the observable effect of `v.disown()` — final state and emitted
events — is identical to letting `v` fall out of scope unused, for every type
and every drop semantics; and for a type whose custom drop increments an
external counter, exactly one such increment and one drop event fire at the
call site. -/
theorem disown_equals_scope_exit :
    (∀ (T S : Type) (d : DropSem T S) (σ : S) (v : T),
        (disownRun d σ v).1 = (fallOutOfScope d σ v).1 ∧
          (disownRun d σ v).2.2 = (fallOutOfScope d σ v).2) ∧
      ∀ (c : Nat) (n : Noisy), disownRun noisyDropSem c n = (c + 1, (), [Event.drop n.id]) :=
  ⟨fun _ _ _ _ _ => ⟨rfl, rfl⟩, fun _ _ => rfl⟩

/-- C3: a single blanket implementation serves every type: at every type the
instance is literally the same constant-unit implementation, with no per-type
special case, any two calls at any two types return the same result, and the
method body behaves identically (same result, same events) at every type. -/
theorem disown_blanket_uniform :
    ∀ (T U : Type) (v : T) (w : U),
      instDisownAll T = ⟨fun _ => ()⟩ ∧
        (instDisownAll T).disown v = (instDisownAll U).disown w ∧
        ∀ (S : Type) (σ : S), (disownBodyRun σ v).2 = (disownBodyRun σ w).2 :=
  fun _ _ _ _ => ⟨rfl, rfl, fun _ _ => rfl⟩

/-- C4: the operation is total — for every state, value and drop semantics the
run produces a unit result — and its own error taxonomy is empty: in the
error-aware semantics every outcome, success or failure, is exactly the outcome
of the value's own drop, so any failure during release lies outside the
operation's error surface. -/
theorem disown_total_no_errors :
    (∀ (T S : Type) (d : DropSem T S) (σ : S) (v : T),
        ∃ σ₂ es, disownRun d σ v = (σ₂, (), es)) ∧
      ∀ (T S E : Type) (d : T → S → Except E (S × List Event)) (σ : S) (v : T),
        disownRunE d σ v = Except.map (fun p => (p.1, (), p.2)) (d v σ) := by
  refine ⟨fun T S d σ v => ⟨(d.onDrop v σ).1, (d.onDrop v σ).2, rfl⟩, fun T S E d σ v => ?_⟩
  unfold disownRunE Except.map
  cases d v σ <;> rfl

/-- C5: `disown` never inspects, reads or branches on its argument: the body's
computation is literally identical for any two values of the same type, and
both calls return the same unit result. -/
theorem disown_ignores_contents :
    ∀ (T S : Type) (σ : S) (v w : T),
      disownBodyRun σ v = disownBodyRun σ w ∧ Disown.disown v = Disown.disown w :=
  fun _ _ _ _ _ => ⟨rfl, rfl⟩

/-- C6 counterexample: for the `Copy` type `i32` (the spec's own scenario
`x = 5`), the program `let x: i32; x.disown(); read x` is accepted by the move
checker — `disown` receives a copy, the binding stays live, and `x` is still
accessible after the call, contradicting the claim as stated. -/
theorem disown_copy_value_still_accessible :
    checkProg [Stmt.letInit "x" Ty.int, Stmt.disownCall "x", Stmt.useVar "x"] = true := by
  decide

/-- C6 (amended): for every sized non-`Copy` type, after `x.disown()` the
binding `x` is no longer accessible — the move checker rejects any later read
of it. -/
theorem disown_noncopy_use_after_rejected (x : String) (t : Ty)
    (h : t.isCopy = false) (hs : t.sized = true) :
    checkProg [Stmt.letInit x t, Stmt.disownCall x, Stmt.useVar x] = false := by
  simp [checkProg, checkFrom, lookupTy_cons_self, isLive_cons_self, kill_singleton_self,
    isLive_nil, disownImplApplies, h, hs]

/-- C6 witness: `Person` is a sized non-`Copy` type, and the checker rejects
reading `x` after `x.disown()`. -/
theorem disown_noncopy_use_after_rejected_witness :
    Ty.isCopy Ty.person = false ∧ Ty.sized Ty.person = true ∧
      checkProg [Stmt.letInit "x" Ty.person, Stmt.disownCall "x", Stmt.useVar "x"] = false :=
  ⟨rfl, rfl, disown_noncopy_use_after_rejected "x" Ty.person rfl rfl⟩

/-- C7 counterexample: for the `Copy` type `i32`, `x.disown(); x.disown();` is
accepted by the move checker — each call consumes a fresh copy — so calling
`disown` twice through the same binding is not a compile-time-rejected
scenario for every type, contradicting the claim as stated. -/
theorem disown_twice_copy_accepted :
    checkProg [Stmt.letInit "x" Ty.int, Stmt.disownCall "x", Stmt.disownCall "x"] = true := by
  decide

/-- C7 (amended): for every sized non-`Copy` type, the first `x.disown()`
moves the value out, so a second `x.disown()` on the same binding is rejected
at compile time by the move checker. -/
theorem disown_twice_noncopy_rejected (x : String) (t : Ty)
    (h : t.isCopy = false) (hs : t.sized = true) :
    checkProg [Stmt.letInit x t, Stmt.disownCall x, Stmt.disownCall x] = false := by
  simp [checkProg, checkFrom, lookupTy_cons_self, isLive_cons_self, kill_singleton_self,
    isLive_nil, disownImplApplies, h, hs]

/-- C7 witness: `Person` is a sized non-`Copy` type, and the checker rejects
the second `x.disown()`. -/
theorem disown_twice_noncopy_rejected_witness :
    Ty.isCopy Ty.person = false ∧ Ty.sized Ty.person = true ∧
      checkProg [Stmt.letInit "x" Ty.person, Stmt.disownCall "x", Stmt.disownCall "x"] = false :=
  ⟨rfl, rfl, disown_twice_noncopy_rejected "x" Ty.person rfl rfl⟩

/-- C8: the call is a single synchronous step — the body itself does nothing
(no state change, no events) and the whole run is exactly the consumed value's
own drop, so any time spent is bounded by that drop, which is outside the
crate. -/
theorem disown_single_step :
    ∀ (T S : Type) (d : DropSem T S) (σ : S) (v : T),
      disownBodyRun σ v = (σ, (), []) ∧
        disownRun d σ v = ((d.onDrop v σ).1, (), (d.onDrop v σ).2) :=
  fun _ _ _ _ _ => ⟨rfl, rfl⟩

/-- C9: the blanket implementation's type parameter carries Rust's implicit
`Sized` bound: `str`, slices and trait objects cannot invoke `disown`, and the
implementation applies to a type exactly when that type is sized. -/
theorem disown_sized_bound :
    disownImplApplies Ty.strTy = false ∧ disownImplApplies Ty.dynTy = false ∧
      disownImplApplies (Ty.sliceTy Ty.int) = false ∧
      ∀ t : Ty, disownImplApplies t = t.sized :=
  ⟨rfl, rfl, rfl, fun _ => rfl⟩

/-- C10: `disown` on a reference consumes only the reference: dropping a
reference updates no heap cell and emits no event, every referent is unchanged
afterward, and the move checker accepts reading the referent through its own
binding after the reference was disowned. -/
theorem disown_reference_frame :
    (∀ (V : Type) (heap : List V) (r : Nat),
        disownRun (refDropSem V) heap r = (heap, (), [])) ∧
      (∀ (V : Type) (heap : List V) (r j : Nat),
        ((disownRun (refDropSem V) heap r).1)[j]? = heap[j]?) ∧
      checkProg [Stmt.letInit "y" Ty.noisy, Stmt.letRef "r" "y",
        Stmt.disownCall "r", Stmt.useVar "y"] = true :=
  ⟨fun _ _ _ => rfl, fun _ _ _ _ => rfl, by decide⟩
